import Mathlib

/-!
Verification of the AudionixConnect data path against its specification.

The development is a shallow embedding of the Python sources:
* `processor.py`  — PCM sample decode/encode (`PCMProcessor`), the factory
  `create_processor`;
* `config.py`     — the `OutputConfig` bitrate validator;
* `receiver.py`   — the RTP packet parser (`RTPPacket.__init__`) and the
  receive loop (`StreamReceiver._receive_loop`);
* `transmitter.py`— RTP packet construction (`create_rtp_packet`) and `send`;
* `app.py`        — the per-packet handler (`AudionixConnect.handle_packet`).

Byte strings are modelled as `List Nat` (each entry a byte value 0..255),
Python ints as `Nat`/`Int` with explicit `% 2 ^ w` where wrap-around matters,
and audio samples as exact rationals `ℚ`.  At every concrete input used
below, the float32 values manipulated by the Python code are exactly
representable (at most 24 significant bits), so the rational model computes
the very numbers the code computes.
-/

/-- Constant `SAMPLE_RATE` of processor.py. -/
def SAMPLE_RATE : Nat := 48000

/-- Constant `BITS_PER_SAMPLE` of processor.py. -/
def BITS_PER_SAMPLE : Nat := 24

/-- Constant `CHANNELS` of processor.py. -/
def CHANNELS : Nat := 2

/-- Value of `PCMProcessor.bytes_per_sample`: `BITS_PER_SAMPLE // 8`, with a
round-up that does not trigger for 24 bits. -/
def bytes_per_sample : Nat :=
  if BITS_PER_SAMPLE % 8 ≠ 0 then BITS_PER_SAMPLE / 8 + 1 else BITS_PER_SAMPLE / 8

/-- Little-endian unsigned value of a byte list, as computed by
Python `int.from_bytes(bs, byteorder=..., signed=False)` for little-endian
order. -/
def bytesLEUnsigned : List Nat → Nat
  | [] => 0
  | b :: bs => b + 256 * bytesLEUnsigned bs

/-- Python `int.from_bytes(bs, byteorder="little", signed=True)`: the
unsigned little-endian value, shifted down by `2 ^ (8 * len)` when the top
bit of the most significant byte is set. -/
def intFromBytesLESigned (bs : List Nat) : Int :=
  let u := bytesLEUnsigned bs
  if 2 ^ (8 * bs.length) ≤ 2 * u then (u : Int) - 2 ^ (8 * bs.length) else (u : Int)

/-- One sample conversion of `PCMProcessor.process_packet` (processor.py
lines 89-98): for 3-byte samples the code appends a zero byte *after* the
little-endian bytes and converts the 4 bytes as a signed little-endian
integer, then divides by `2 ^ (8 * bytes_per_sample - 1)`. -/
def pcmDecodeSample (sample_bytes : List Nat) : ℚ :=
  if bytes_per_sample = 3 then
    (intFromBytesLESigned (sample_bytes ++ [0]) : ℚ) / 2 ^ (8 * bytes_per_sample - 1)
  else
    (intFromBytesLESigned sample_bytes : ℚ) / 2 ^ (8 * bytes_per_sample - 1)

/-- Embedding of `PCMProcessor.process_packet` (processor.py lines 63-108):
split the
payload into frames of `bytes_per_sample * CHANNELS` bytes, decode each
channel sample whose bytes lie inside the payload, and keep only the frames
that obtained all channels. -/
def pcm_process_packet (payload : List Nat) : List (List ℚ) :=
  let bytes_per_frame := bytes_per_sample * CHANNELS
  let num_frames := payload.length / bytes_per_frame
  ((List.range num_frames).map (fun i =>
    (List.range CHANNELS).filterMap (fun c =>
      let offset := i * bytes_per_frame + c * bytes_per_sample
      if offset + bytes_per_sample ≤ payload.length then
        some (pcmDecodeSample ((payload.drop offset).take bytes_per_sample))
      else
        none))).filter (fun frame => frame.length = CHANNELS)

/-- Truncation toward zero, the conversion performed by numpy
`astype(np.int32)` on values inside the int32 range. -/
def truncToward0 (q : ℚ) : Int :=
  if 0 ≤ q then ⌊q⌋ else ⌈q⌉

/-- The first `n` bytes of the little-endian twos-complement 32-bit
representation of `v`, as produced by numpy `int32.tobytes()` sliced to
`n` bytes (processor.py line 136). -/
def int32LEBytes (v : Int) (n : Nat) : List Nat :=
  (List.range n).map (fun k => (v % 2 ^ 32).toNat / 2 ^ (8 * k) % 256)

/-- Embedding of `PCMProcessor.prepare_payload` (processor.py lines 110-142):
scale each
sample by `2 ^ (BITS_PER_SAMPLE - 1) - 1`, truncate to int32, and emit the
low `bytes_per_sample` bytes of each sample, channel-interleaved. -/
def pcm_prepare_payload (audio_data : List (List ℚ)) : List Nat :=
  let scale : ℚ := 2 ^ (BITS_PER_SAMPLE - 1) - 1
  (audio_data.map (fun frame =>
    (frame.map (fun sample =>
      int32LEBytes (truncToward0 (sample * scale)) bytes_per_sample)).flatten)).flatten

/-- C1: for the 6-byte payload `ff ff ff ff ff ff` — one complete 2-channel
frame whose two 3-byte samples both have the top bit set — the decode of
`PCMProcessor.process_packet` returns `16777215 / 2 ^ 23` for both samples:
a value strictly greater than 1, not the negative value `-1 / 2 ^ 23` that
sign extension would give.  The appended pad byte lands in the most
significant position of the little-endian conversion, so the sign is lost. -/
theorem pcm_decode_drops_sign_at_topbit_input :
    pcm_process_packet [255, 255, 255, 255, 255, 255] =
      [[(16777215 : ℚ) / 2 ^ 23, (16777215 : ℚ) / 2 ^ 23]] ∧
    (1 : ℚ) < (16777215 : ℚ) / 2 ^ 23 := by
  have hstep : pcm_process_packet [255, 255, 255, 255, 255, 255] =
      [[pcmDecodeSample [255, 255, 255], pcmDecodeSample [255, 255, 255]]] := rfl
  have hval : intFromBytesLESigned [255, 255, 255, 0] = 16777215 := rfl
  have hsample : pcmDecodeSample [255, 255, 255] = (16777215 : ℚ) / 2 ^ 23 := by
    have h : pcmDecodeSample [255, 255, 255] =
        ((intFromBytesLESigned [255, 255, 255, 0] : ℤ) : ℚ) / 2 ^ 23 := rfl
    rw [h, hval]
    norm_num
  rw [hstep, hsample]
  norm_num

/-- C2: encoding the single frame `[-1, -1]` with
`PCMProcessor.prepare_payload` and decoding the resulting bytes with
`PCMProcessor.process_packet` yields `8388609 / 2 ^ 23` for both samples,
which differs from the original `-1` by about 2 — far more than the claimed
quantization bound `2 ^ (-23)`. -/
theorem pcm_roundtrip_fails_at_negative_one :
    pcm_process_packet (pcm_prepare_payload [[-1, -1]]) =
      [[(8388609 : ℚ) / 2 ^ 23, (8388609 : ℚ) / 2 ^ 23]] ∧
    ¬ |(8388609 : ℚ) / 2 ^ 23 - (-1)| ≤ 1 / 2 ^ 23 := by
  have hq : (-1 : ℚ) * (2 ^ (BITS_PER_SAMPLE - 1) - 1) = ((-8388607 : ℤ) : ℚ) := by
    norm_num [BITS_PER_SAMPLE]
  have htr : truncToward0 ((-8388607 : ℤ) : ℚ) = -8388607 := by
    rw [truncToward0]
    rw [if_neg (by norm_num)]
    exact Int.ceil_intCast _
  have hbytes : int32LEBytes (-8388607) bytes_per_sample = [1, 0, 128] := rfl
  have henc : pcm_prepare_payload [[-1, -1]] = [1, 0, 128, 1, 0, 128] := by
    show ([[int32LEBytes (truncToward0 ((-1 : ℚ) * (2 ^ (BITS_PER_SAMPLE - 1) - 1)))
        bytes_per_sample,
      int32LEBytes (truncToward0 ((-1 : ℚ) * (2 ^ (BITS_PER_SAMPLE - 1) - 1)))
        bytes_per_sample]].map List.flatten).flatten = [1, 0, 128, 1, 0, 128]
    rw [hq, htr, hbytes]
    rfl
  have hstep : pcm_process_packet [1, 0, 128, 1, 0, 128] =
      [[pcmDecodeSample [1, 0, 128], pcmDecodeSample [1, 0, 128]]] := rfl
  have hval : intFromBytesLESigned [1, 0, 128, 0] = 8388609 := rfl
  have hsample : pcmDecodeSample [1, 0, 128] = (8388609 : ℚ) / 2 ^ 23 := by
    have h : pcmDecodeSample [1, 0, 128] =
        ((intFromBytesLESigned [1, 0, 128, 0] : ℤ) : ℚ) / 2 ^ 23 := rfl
    rw [h, hval]
    norm_num
  rw [henc, hstep, hsample]
  refine ⟨rfl, ?_⟩
  rw [abs_le]
  norm_num

/-- Big-endian 2-byte serialization, as produced by `struct.pack` with the
network-order unsigned-short format used in transmitter.py line 87.  The
caller is responsible for `v < 2 ^ 16`; `struct.pack` raises otherwise. -/
def pack16BE (v : Nat) : List Nat :=
  [v / 256 % 256, v % 256]

/-- Big-endian 4-byte serialization, as produced by `struct.pack` with the
network-order unsigned-int format.  The caller is responsible for
`v < 2 ^ 32`. -/
def pack32BE (v : Nat) : List Nat :=
  [v / 16777216 % 256, v / 65536 % 256, v / 256 % 256, v % 256]

/-- Big-endian 2-byte read, as performed by `struct.unpack` with the
network-order unsigned-short format (receiver.py line 36). -/
def unpack16BE (b0 b1 : Nat) : Nat :=
  b0 * 256 + b1

/-- Big-endian 4-byte read, as performed by `struct.unpack` with the
network-order unsigned-int format (receiver.py lines 37-38). -/
def unpack32BE (b0 b1 b2 b3 : Nat) : Nat :=
  ((b0 * 256 + b1) * 256 + b2) * 256 + b3

/-- Big-endian 4-byte read of `packet_data[off : off + 4]` (receiver.py
line 45); indices are in range whenever the caller checked the bound. -/
def unpack32At (packet_data : List Nat) (off : Nat) : Nat :=
  unpack32BE (packet_data.getD off 0) (packet_data.getD (off + 1) 0)
    (packet_data.getD (off + 2) 0) (packet_data.getD (off + 3) 0)

/-- Parsed RTP packet, the fields set by `RTPPacket.__init__` in
receiver.py. -/
structure RTPPacket where
  version : Nat
  padding : Nat
  ext_flag : Nat
  csrc_count : Nat
  marker : Nat
  payload_type : Nat
  sequence_number : Nat
  timestamp : Nat
  ssrc : Nat
  csrc : List Nat
  payload : List Nat
  deriving DecidableEq

/-- Embedding of `RTPPacket.__init__` (receiver.py lines 18-49): raise on
length < 12,
otherwise split the first byte into version/padding/extension/csrc count,
the second into marker/payload type, read sequence number, timestamp and
ssrc big-endian, collect the CSRC entries that lie fully inside the buffer,
and take the payload from offset `12 + 4 * csrc_count` on (an offset at or
past the end yields the empty payload, as Python slicing does). -/
def RTPPacket.decode (packet_data : List Nat) : Except String RTPPacket :=
  match packet_data with
  | b0 :: b1 :: b2 :: b3 :: b4 :: b5 :: b6 :: b7 :: b8 :: b9 :: b10 :: b11 :: _ =>
    let csrc_count := b0 &&& 15
    Except.ok {
      version := b0 >>> 6 &&& 3
      padding := b0 >>> 5 &&& 1
      ext_flag := b0 >>> 4 &&& 1
      csrc_count := csrc_count
      marker := b1 >>> 7 &&& 1
      payload_type := b1 &&& 127
      sequence_number := unpack16BE b2 b3
      timestamp := unpack32BE b4 b5 b6 b7
      ssrc := unpack32BE b8 b9 b10 b11
      csrc := (List.range csrc_count).filterMap (fun i =>
        if 12 + i * 4 + 4 ≤ packet_data.length then
          some (unpack32At packet_data (12 + i * 4))
        else
          none)
      payload := packet_data.drop (12 + csrc_count * 4) }
  | _ => Except.error "Packet too short to be an RTP packet"

/-- Mutable state of `RTPTransmitter` (transmitter.py lines 28-36): the RTP
header counters together with the running flag (`self.running`, which is
true exactly when the send socket is open). -/
structure TransmitterState where
  sequence_number : Nat
  timestamp : Nat
  ssrc : Nat
  payload_type : Nat
  running : Bool
  deriving DecidableEq

/-- Embedding of `RTPTransmitter.create_rtp_packet` (transmitter.py lines
63-101):
serialize the 12-byte header (version 2, no padding, no extension, CSRC
count 0, marker bit, payload type, then sequence number, timestamp and ssrc
in network byte order), advance the sequence number mod 65536 and the
timestamp by 960 mod `2 ^ 32`, and return the header followed by the
payload together with the updated state. -/
def create_rtp_packet (st : TransmitterState) (payload : List Nat) (marker : Bool) :
    List Nat × TransmitterState :=
  let version := 2
  let padding := 0
  let ext_flag := 0
  let csrc_count := 0
  let first_byte := version <<< 6 ||| padding <<< 5 ||| ext_flag <<< 4 ||| csrc_count
  let second_byte := (if marker then 1 else 0) <<< 7 ||| st.payload_type
  let header := [first_byte, second_byte] ++ pack16BE st.sequence_number ++
    pack32BE st.timestamp ++ pack32BE st.ssrc
  (header ++ payload,
   { st with
     sequence_number := (st.sequence_number + 1) % 65536,
     timestamp := (st.timestamp + 960) % 2 ^ 32 })

/-- Embedding of `RTPTransmitter.send` (transmitter.py lines 103-127).
The outcome of
the underlying `socket.sendto` call is an input of the model
(`sendto_ok`); an exception raised by it is caught and turns into a `false`
result.  Note the code builds the packet — thereby advancing the state —
before attempting the transmission. -/
def send (st : TransmitterState) (payload : List Nat) (marker : Bool)
    (sendto_ok : Bool) : Bool × TransmitterState :=
  if st.running = false then (false, st)
  else
    let packed := create_rtp_packet st payload marker
    if sendto_ok then (true, packed.2) else (false, packed.2)

/-- C3 counterexample: with the transmitter running, a call to `send` whose
underlying `sendto` fails returns `false`, yet the sequence number and the
timestamp have been advanced — `create_rtp_packet` mutates the state before
the transmission is attempted. -/
theorem send_failure_still_advances_state :
    (send ⟨5, 7, 9, 96, true⟩ [] false false).1 = false ∧
    (send ⟨5, 7, 9, 96, true⟩ [] false false).2 ≠ ⟨5, 7, 9, 96, true⟩ := by
  decide

/-- C3 amended: when the transmitter is not running, `send` returns `false`
and leaves the state unchanged; when it is running, `send` returns the
`sendto` outcome and the state has been advanced exactly once — sequence
number plus 1 mod 65536 and timestamp plus 960 mod `2 ^ 32` — whether or
not the transmission succeeded. -/
theorem send_state_mutation_characterization (st : TransmitterState)
    (payload : List Nat) (marker : Bool) (sendto_ok : Bool) :
    (st.running = false → send st payload marker sendto_ok = (false, st)) ∧
    (st.running = true →
      (send st payload marker sendto_ok).1 = sendto_ok ∧
      (send st payload marker sendto_ok).2 =
        { st with
          sequence_number := (st.sequence_number + 1) % 65536,
          timestamp := (st.timestamp + 960) % 2 ^ 32 }) := by
  constructor
  · intro h
    simp [send, h]
  · intro h
    cases sendto_ok <;> simp [send, h, create_rtp_packet]

/-- Closed instance of the C3 amended theorem: a stopped transmitter
rejects the send and keeps its state. -/
theorem send_state_mutation_witness :
    send ⟨0, 0, 0, 96, false⟩ [] false true = (false, ⟨0, 0, 0, 96, false⟩) :=
  (send_state_mutation_characterization ⟨0, 0, 0, 96, false⟩ [] false true).1 rfl

/-- C7: every buffer shorter than 12 bytes is rejected by the RTP parser
with the too-short error. -/
theorem rtp_decode_too_short_fails (packet_data : List Nat)
    (h : packet_data.length < 12) :
    RTPPacket.decode packet_data =
      Except.error "Packet too short to be an RTP packet" := by
  rcases packet_data with _ | ⟨a0, _ | ⟨a1, _ | ⟨a2, _ | ⟨a3, _ | ⟨a4, _ | ⟨a5,
    _ | ⟨a6, _ | ⟨a7, _ | ⟨a8, _ | ⟨a9, _ | ⟨a10, _ | ⟨a11, rest⟩⟩⟩⟩⟩⟩⟩⟩⟩⟩⟩⟩
  all_goals first
    | rfl
    | (exfalso; simp only [List.length_cons] at h; omega)

/-- Closed instance of C7: the empty buffer is rejected. -/
theorem rtp_decode_too_short_witness :
    RTPPacket.decode [] = Except.error "Packet too short to be an RTP packet" :=
  rtp_decode_too_short_fails [] (by decide)

/-- Second header byte with the marker bit set: shifting back out recovers
marker 1 and masking recovers the payload type, for every 7-bit payload
type. -/
theorem markerByteHigh : ∀ pt < 128,
    (1 <<< 7 ||| pt) >>> 7 &&& 1 = 1 ∧ (1 <<< 7 ||| pt) &&& 127 = pt := by
  decide

/-- Second header byte with the marker bit clear: shifting back out
recovers marker 0 and masking recovers the payload type, for every 7-bit
payload type. -/
theorem markerByteLow : ∀ pt < 128,
    (0 <<< 7 ||| pt) >>> 7 &&& 1 = 0 ∧ (0 <<< 7 ||| pt) &&& 127 = pt := by
  decide

/-- C5: decoding the bytes built by `create_rtp_packet` with the receiver
parser recovers version 2, no padding, no extension, CSRC count 0, the
marker bit, payload type, sequence number, timestamp, ssrc and the payload
unchanged, for every state whose fields fit their wire widths (which
`struct.pack` enforces in the code by raising otherwise). -/
theorem rtp_encode_decode_roundtrip (st : TransmitterState) (payload : List Nat)
    (marker : Bool) (hpt : st.payload_type < 128)
    (hseq : st.sequence_number < 2 ^ 16) (hts : st.timestamp < 2 ^ 32)
    (hssrc : st.ssrc < 2 ^ 32) :
    RTPPacket.decode (create_rtp_packet st payload marker).1 =
      Except.ok ⟨2, 0, 0, 0, if marker then 1 else 0, st.payload_type,
        st.sequence_number, st.timestamp, st.ssrc, [], payload⟩ := by
  obtain ⟨seq, ts, ssrc, pt, run⟩ := st
  dsimp only at hpt hseq hts hssrc ⊢
  norm_num at hseq hts hssrc
  cases marker
  · simp only [create_rtp_packet, pack16BE, pack32BE, List.cons_append,
      List.nil_append, Bool.false_eq_true, reduceIte]
    simp only [RTPPacket.decode, unpack16BE, unpack32BE, Except.ok.injEq,
      RTPPacket.mk.injEq]
    refine ⟨by decide, by decide, by decide, by decide, (markerByteLow pt hpt).1,
      (markerByteLow pt hpt).2, by omega, by omega, by omega, rfl, rfl⟩
  · simp only [create_rtp_packet, pack16BE, pack32BE, List.cons_append,
      List.nil_append, reduceIte]
    simp only [RTPPacket.decode, unpack16BE, unpack32BE, Except.ok.injEq,
      RTPPacket.mk.injEq]
    refine ⟨by decide, by decide, by decide, by decide, (markerByteHigh pt hpt).1,
      (markerByteHigh pt hpt).2, by omega, by omega, by omega, rfl, rfl⟩

/-- Closed instance of the C5 round-trip at a concrete state, marker `true`
and a 3-byte payload. -/
theorem rtp_encode_decode_roundtrip_witness :
    RTPPacket.decode (create_rtp_packet ⟨1000, 123456, 42, 96, true⟩ [1, 2, 3] true).1 =
      Except.ok ⟨2, 0, 0, 0, 1, 96, 1000, 123456, 42, [], [1, 2, 3]⟩ := by
  have h := rtp_encode_decode_roundtrip ⟨1000, 123456, 42, 96, true⟩ [1, 2, 3] true
    (by norm_num) (by norm_num) (by norm_num) (by norm_num)
  simpa using h

/-- Result state of `n` consecutive successful `send` calls, the payload
and marker of the k-th call being `payloads k` and `markers k`. -/
def sendN (payloads : Nat → List Nat) (markers : Nat → Bool) :
    Nat → TransmitterState → TransmitterState
  | 0, st => st
  | n + 1, st => sendN payloads markers n (send st (payloads n) (markers n) true).2

/-- State update performed by one `send` call on a running transmitter,
whatever the `sendto` outcome. -/
theorem send_running_step (st : TransmitterState) (payload : List Nat)
    (marker : Bool) (sendto_ok : Bool) (h : st.running = true) :
    (send st payload marker sendto_ok).2 =
      { st with
        sequence_number := (st.sequence_number + 1) % 65536,
        timestamp := (st.timestamp + 960) % 2 ^ 32 } := by
  cases sendto_ok <;> simp [send, h, create_rtp_packet]

/-- Closed form of the state after `n` successful sends: the running flag
is kept, the sequence number is the start plus `n` mod 65536 and the
timestamp is the start plus `960 * n` mod `2 ^ 32`. -/
theorem sendN_invariant (payloads : Nat → List Nat) (markers : Nat → Bool) :
    ∀ (n : Nat) (st : TransmitterState), st.running = true →
    st.sequence_number < 65536 → st.timestamp < 2 ^ 32 →
    (sendN payloads markers n st).running = true ∧
    (sendN payloads markers n st).sequence_number =
      (st.sequence_number + n) % 65536 ∧
    (sendN payloads markers n st).timestamp =
      (st.timestamp + 960 * n) % 2 ^ 32 := by
  intro n
  induction n with
  | zero =>
    intro st h hs ht
    simp only [Nat.reducePow] at ht
    refine ⟨h, ?_, ?_⟩
    · simp only [sendN, Nat.mul_zero, Nat.add_zero]
      omega
    · simp only [sendN, Nat.mul_zero, Nat.add_zero, Nat.reducePow]
      omega
  | succ n ih =>
    intro st h hs ht
    rw [sendN, send_running_step st (payloads n) (markers n) true h]
    obtain ⟨hr, hseq2, hts2⟩ := ih
      { st with
        sequence_number := (st.sequence_number + 1) % 65536,
        timestamp := (st.timestamp + 960) % 2 ^ 32 }
      h (Nat.mod_lt _ (by norm_num)) (Nat.mod_lt _ (by norm_num))
    have e1 : ({ st with
        sequence_number := (st.sequence_number + 1) % 65536,
        timestamp := (st.timestamp + 960) % 2 ^ 32 } :
        TransmitterState).sequence_number = (st.sequence_number + 1) % 65536 := rfl
    have e2 : ({ st with
        sequence_number := (st.sequence_number + 1) % 65536,
        timestamp := (st.timestamp + 960) % 2 ^ 32 } :
        TransmitterState).timestamp = (st.timestamp + 960) % 2 ^ 32 := rfl
    refine ⟨hr, ?_, ?_⟩
    · rw [hseq2, e1]
      omega
    · rw [hts2, e2]
      simp only [Nat.reducePow]
      omega

/-- C6: on a running transmitter each successful send advances the
sequence number by exactly 1 mod 65536 and the timestamp by exactly 960
mod `2 ^ 32`, for any payload and marker; consequently 65536 successful
sends bring the sequence number back to its starting value. -/
theorem transmitter_counters_advance_and_wrap (st : TransmitterState)
    (payloads : Nat → List Nat) (markers : Nat → Bool)
    (hrun : st.running = true) (hseq : st.sequence_number < 65536)
    (hts : st.timestamp < 2 ^ 32) :
    (∀ payload marker,
      (send st payload marker true).2.sequence_number =
        (st.sequence_number + 1) % 65536 ∧
      (send st payload marker true).2.timestamp =
        (st.timestamp + 960) % 2 ^ 32) ∧
    (sendN payloads markers 65536 st).sequence_number = st.sequence_number := by
  constructor
  · intro payload marker
    rw [send_running_step st payload marker true hrun]
    exact ⟨rfl, rfl⟩
  · have h := (sendN_invariant payloads markers 65536 st hrun hseq hts).2.1
    rw [h]
    omega

/-- Closed instance of C6: starting from sequence number 1234, 65536
successful sends return to 1234. -/
theorem transmitter_wrap_witness :
    (sendN (fun _ => []) (fun _ => false) 65536 ⟨1234, 5, 6, 96, true⟩).sequence_number
      = 1234 :=
  (transmitter_counters_advance_and_wrap ⟨1234, 5, 6, 96, true⟩ (fun _ => [])
    (fun _ => false) rfl (by norm_num) (by norm_num)).2

/-- Number of CSRC entries the parser collects: one per index below the
count whose 4 bytes fit inside the buffer, hence the minimum of the count
and the room left after the 12-byte header. -/
theorem csrc_filterMap_length (L : Nat) (f : Nat → Nat) (hL : 12 ≤ L) :
    ∀ cc : Nat,
    ((List.range cc).filterMap (fun i =>
      if 12 + i * 4 + 4 ≤ L then some (f i) else none)).length =
      min cc ((L - 12) / 4) := by
  intro cc
  induction cc with
  | zero => simp
  | succ n ih =>
    rw [List.range_succ, List.filterMap_append, List.length_append, ih]
    by_cases h : 12 + n * 4 + 4 ≤ L
    · simp [h]
      omega
    · simp [h]
      omega

/-- C8: every buffer of length at least 12 parses successfully, whatever
CSRC count its first byte announces; the CSRC list keeps exactly the
entries whose 4 bytes fit inside the buffer, and the payload is the bytes
from offset `12 + 4 * csrc_count` on — empty when that offset is at or
past the end. -/
theorem rtp_decode_long_enough (packet_data : List Nat)
    (h : 12 ≤ packet_data.length) :
    ∃ p : RTPPacket, RTPPacket.decode packet_data = Except.ok p ∧
      p.csrc_count = packet_data.getD 0 0 &&& 15 ∧
      p.csrc_count ≤ 15 ∧
      p.csrc.length = min p.csrc_count ((packet_data.length - 12) / 4) ∧
      p.payload = packet_data.drop (12 + 4 * p.csrc_count) ∧
      (packet_data.length ≤ 12 + 4 * p.csrc_count → p.payload = []) := by
  rcases packet_data with _ | ⟨b0, _ | ⟨b1, _ | ⟨b2, _ | ⟨b3, _ | ⟨b4, _ | ⟨b5,
    _ | ⟨b6, _ | ⟨b7, _ | ⟨b8, _ | ⟨b9, _ | ⟨b10, _ | ⟨b11, rest⟩⟩⟩⟩⟩⟩⟩⟩⟩⟩⟩⟩
  case nil => exact absurd h (by simp)
  case cons.nil => exact absurd h (by simp)
  case cons.cons.nil => exact absurd h (by simp)
  case cons.cons.cons.nil => exact absurd h (by simp)
  case cons.cons.cons.cons.nil => exact absurd h (by simp)
  case cons.cons.cons.cons.cons.nil => exact absurd h (by simp)
  case cons.cons.cons.cons.cons.cons.nil => exact absurd h (by simp)
  case cons.cons.cons.cons.cons.cons.cons.nil => exact absurd h (by simp)
  case cons.cons.cons.cons.cons.cons.cons.cons.nil => exact absurd h (by simp)
  case cons.cons.cons.cons.cons.cons.cons.cons.cons.nil =>
    exact absurd h (by simp)
  case cons.cons.cons.cons.cons.cons.cons.cons.cons.cons.nil =>
    exact absurd h (by simp)
  case cons.cons.cons.cons.cons.cons.cons.cons.cons.cons.cons.nil =>
    exact absurd h (by simp)
  refine ⟨_, rfl, rfl, Nat.and_le_right, ?_, ?_, ?_⟩
  · exact csrc_filterMap_length _ _ h _
  · rw [Nat.mul_comm]
  · intro h2
    dsimp only at h2
    exact List.drop_eq_nil_of_le (by omega)

/-- Closed instance of C8: a 17-byte packet announcing CSRC count 2 parses,
keeps the single CSRC entry that fits, and has an empty payload because the
payload offset 20 is past the end. -/
theorem rtp_decode_long_enough_witness :
    ∃ p : RTPPacket,
      RTPPacket.decode [130, 96, 0, 1, 0, 0, 0, 2, 0, 0, 0, 3, 0, 0, 0, 4, 7] =
        Except.ok p ∧
      p.csrc_count =
        [130, 96, 0, 1, 0, 0, 0, 2, 0, 0, 0, 3, 0, 0, 0, 4, 7].getD 0 0 &&& 15 ∧
      p.csrc_count ≤ 15 ∧
      p.csrc.length = min p.csrc_count
        (([130, 96, 0, 1, 0, 0, 0, 2, 0, 0, 0, 3, 0, 0, 0, 4, 7].length - 12) / 4) ∧
      p.payload = [130, 96, 0, 1, 0, 0, 0, 2, 0, 0, 0, 3, 0, 0, 0, 4, 7].drop
        (12 + 4 * p.csrc_count) ∧
      ([130, 96, 0, 1, 0, 0, 0, 2, 0, 0, 0, 3, 0, 0, 0, 4, 7].length ≤
          12 + 4 * p.csrc_count → p.payload = []) :=
  rtp_decode_long_enough [130, 96, 0, 1, 0, 0, 0, 2, 0, 0, 0, 3, 0, 0, 0, 4, 7]
    (by decide)

/-- Kind of audio processor built by the factory: plain PCM, or Opus with
its configured bitrate. -/
inductive AudioProcessorKind where
  | pcm : AudioProcessorKind
  | opus (bitrate : Nat) : AudioProcessorKind
  deriving DecidableEq

/-- Python `str.lower` restricted to ASCII, character by character — the
encoding names compared against are ASCII. -/
def pyLower (s : String) : String :=
  String.mk (s.data.map Char.toLower)

/-- Embedding of `create_processor` (processor.py lines 231-252): the
factory lowers the
encoding name, returns a PCM processor for "pcm", an Opus processor for
"opus" — substituting the default bitrate 128000 when none was given — and
raises `ValueError` only for unknown encodings. -/
def create_processor (encoding : String) (bitrate : Option Nat) :
    Except String AudioProcessorKind :=
  if pyLower encoding = "pcm" then Except.ok AudioProcessorKind.pcm
  else if pyLower encoding = "opus" then
    Except.ok (AudioProcessorKind.opus (match bitrate with
      | none => 128000
      | some b => b))
  else Except.error ("Unsupported encoding: " ++ encoding)

/-- Embedding of `OutputConfig.validate_bitrate` (config.py lines 41-45):
the pydantic
validator of the configuration layer rejects a missing or non-positive
bitrate when the encoding is "opus". -/
def validate_bitrate (encoding : String) (v : Option Int) :
    Except String (Option Int) :=
  if encoding = "opus" && (match v with
      | none => true
      | some b => decide (b ≤ 0)) then
    Except.error "Bitrate must be specified and positive for Opus encoding"
  else
    Except.ok v

/-- C4 counterexample: the factory call with encoding "opus" and no bitrate
does not fail — it silently falls back to the default bitrate 128000 and
returns an Opus processor. -/
theorem create_processor_opus_none_succeeds :
    create_processor "opus" none = Except.ok (AudioProcessorKind.opus 128000) := by
  rw [create_processor]
  rw [if_neg (by decide), if_pos (by decide)]

/-- C4 amended: with encoding "opus" and bitrate absent, the factory
succeeds with the default bitrate 128000; the validation error for that
combination is raised by the configuration layer bitrate validator, which
runs when the configuration object is built, before components are
constructed. -/
theorem opus_bitrate_validation_in_config_layer :
    create_processor "opus" none = Except.ok (AudioProcessorKind.opus 128000) ∧
    validate_bitrate "opus" none =
      Except.error "Bitrate must be specified and positive for Opus encoding" := by
  constructor
  · rw [create_processor]
    rw [if_neg (by decide), if_pos (by decide)]
  · rw [validate_bitrate]
    rw [if_pos (by decide)]

/-- Observable state of `StreamReceiver._receive_loop`: the running flag
and the packets handed to the caller-supplied handler, in order. -/
structure ReceiverLoopState where
  running : Bool
  handled : List RTPPacket
  deriving DecidableEq

/-- Embedding of `StreamReceiver._receive_loop` (receiver.py lines 118-135)
driven by an
explicit sequence of incoming datagrams.  Each iteration checks the running
flag, skips empty datagrams, parses the datagram and invokes the handler on
success; a parse error or a handler exception is caught and logged, so the
iteration always falls through to the next datagram.  The handler is
modelled as a function that may return an error (a raised exception); its
result is discarded by the loop, exactly as the caught exception is. -/
def receive_loop (handler : RTPPacket → Except String Unit) :
    List (List Nat) → ReceiverLoopState → ReceiverLoopState
  | [], st => st
  | data :: rest, st =>
    if st.running = false then st
    else
      receive_loop handler rest
        (if data = [] then st
         else
           match RTPPacket.decode data with
           | Except.error _ => st
           | Except.ok pkt =>
             let _ := handler pkt
             { st with handled := st.handled ++ [pkt] })

/-- Generalisation of the loop property to an arbitrary start state: the
running flag survives every datagram and the handler receives exactly the
packets that parse, in arrival order. -/
theorem receive_loop_general (handler : RTPPacket → Except String Unit) :
    ∀ (datagrams : List (List Nat)) (st : ReceiverLoopState),
    st.running = true →
    (receive_loop handler datagrams st).running = true ∧
    (receive_loop handler datagrams st).handled =
      st.handled ++ datagrams.filterMap (fun d => (RTPPacket.decode d).toOption) := by
  intro datagrams
  induction datagrams with
  | nil =>
    intro st h
    simp [receive_loop, h]
  | cons d rest ih =>
    intro st h
    rw [receive_loop]
    rw [if_neg (by rw [h]; simp)]
    by_cases hd : d = []
    · have hdec : RTPPacket.decode d = Except.error "Packet too short to be an RTP packet" := by
        rw [hd]; rfl
      rw [if_pos hd]
      obtain ⟨h1, h2⟩ := ih st h
      exact ⟨h1, by rw [h2, List.filterMap_cons, hdec]; rfl⟩
    · rw [if_neg hd]
      cases hdec : RTPPacket.decode d with
      | error e =>
        obtain ⟨h1, h2⟩ := ih st h
        exact ⟨h1, by rw [h2, List.filterMap_cons, hdec]; rfl⟩
      | ok pkt =>
        obtain ⟨h1, h2⟩ :=
          ih { st with handled := st.handled ++ [pkt] } h
        refine ⟨h1, ?_⟩
        rw [h2, List.filterMap_cons, hdec]
        simp [Except.toOption, List.append_assoc]

/-- C9: started in the `Running` state, the receive loop survives every
datagram sequence — a parse failure or a handler exception never stops it —
and the handler is invoked on exactly the datagrams that parse, in order.
In particular 100 malformed datagrams do not keep datagram 101 from being
parsed and handed to the handler. -/
theorem receive_loop_survives_bad_packets
    (handler : RTPPacket → Except String Unit) (datagrams : List (List Nat)) :
    (receive_loop handler datagrams ⟨true, []⟩).running = true ∧
    (receive_loop handler datagrams ⟨true, []⟩).handled =
      datagrams.filterMap (fun d => (RTPPacket.decode d).toOption) := by
  have h := receive_loop_general handler datagrams ⟨true, []⟩ rfl
  simpa using h

/-- Packet statistics kept by `AudionixConnect` (app.py lines 39-44);
`start_time` is not modelled, `handle_packet` never touches it. -/
structure Stats where
  packets_received : Nat
  packets_sent : Nat
  errors : Nat
  deriving DecidableEq

/-- Embedding of `AudionixConnect.handle_packet` (app.py lines 87-112).
The three
collaborators — `processor.process_packet`, `processor.prepare_payload` and
`transmitter.send` — are inputs of the model, each allowed to raise (an
`Except.error` result); a raise anywhere in the try block jumps to the
handler that increments `errors`.  On the normal path `packets_sent` is
incremented exactly when `send` returned `True`, and `packets_received` is
incremented last. -/
def handle_packet (process : List Nat → Except String (List (List ℚ)))
    (prep : List (List ℚ) → Except String (List Nat))
    (send_payload : List Nat → Bool → Except String Bool)
    (stats : Stats) (packet_payload : List Nat) (packet_marker : Bool) : Stats :=
  match process packet_payload with
  | Except.error _ => { stats with errors := stats.errors + 1 }
  | Except.ok audio_data =>
    if 0 < audio_data.flatten.length then
      match prep audio_data with
      | Except.error _ => { stats with errors := stats.errors + 1 }
      | Except.ok output_payload =>
        if output_payload ≠ [] then
          match send_payload output_payload packet_marker with
          | Except.error _ => { stats with errors := stats.errors + 1 }
          | Except.ok success =>
            if success then
              { stats with
                packets_sent := stats.packets_sent + 1,
                packets_received := stats.packets_received + 1 }
            else
              { stats with packets_received := stats.packets_received + 1 }
        else
          { stats with packets_received := stats.packets_received + 1 }
    else
      { stats with packets_received := stats.packets_received + 1 }

/-- Raising condition of the `handle_packet` try block: true exactly when
the first collaborator call that control reaches — `process_packet`, then
`prepare_payload` (only for non-empty audio), then `send` (only for a
non-empty outgoing payload) — returns an error.  This is the condition
under which app.py line 110 catches an exception. -/
def handle_packet_raises (process : List Nat → Except String (List (List ℚ)))
    (prep : List (List ℚ) → Except String (List Nat))
    (send_payload : List Nat → Bool → Except String Bool)
    (packet_payload : List Nat) (packet_marker : Bool) : Bool :=
  match process packet_payload with
  | Except.error _ => true
  | Except.ok audio_data =>
    if 0 < audio_data.flatten.length then
      match prep audio_data with
      | Except.error _ => true
      | Except.ok output_payload =>
        if output_payload ≠ [] then
          match send_payload output_payload packet_marker with
          | Except.error _ => true
          | Except.ok _ => false
        else false
    else false

/-- C10: one completed `handle_packet` invocation increments exactly one of
`packets_received` and `errors`, and increments `packets_sent` — by at most
one — only when it also increments `packets_received`, so `packets_sent`
never exceeds `packets_received`; moreover the `errors` outcome happens
exactly when the handling raises, so a raising packet is counted in
`errors` and leaves `packets_received` (and `packets_sent`) unchanged,
while a non-raising packet is counted in `packets_received` with `errors`
unchanged. -/
theorem handle_packet_counter_discipline
    (process : List Nat → Except String (List (List ℚ)))
    (prep : List (List ℚ) → Except String (List Nat))
    (send_payload : List Nat → Bool → Except String Bool)
    (stats : Stats) (packet_payload : List Nat) (packet_marker : Bool)
    (hinv : stats.packets_sent ≤ stats.packets_received) :
    ((handle_packet process prep send_payload stats packet_payload
          packet_marker).packets_received = stats.packets_received + 1 ∧
      (handle_packet process prep send_payload stats packet_payload
          packet_marker).errors = stats.errors ∨
     (handle_packet process prep send_payload stats packet_payload
          packet_marker).errors = stats.errors + 1 ∧
      (handle_packet process prep send_payload stats packet_payload
          packet_marker).packets_received = stats.packets_received) ∧
    ((handle_packet process prep send_payload stats packet_payload
          packet_marker).packets_sent = stats.packets_sent ∨
     (handle_packet process prep send_payload stats packet_payload
          packet_marker).packets_sent = stats.packets_sent + 1 ∧
      (handle_packet process prep send_payload stats packet_payload
          packet_marker).packets_received = stats.packets_received + 1) ∧
    ((handle_packet process prep send_payload stats packet_payload
        packet_marker).packets_sent ≤
      (handle_packet process prep send_payload stats packet_payload
        packet_marker).packets_received) ∧
    (handle_packet_raises process prep send_payload packet_payload
        packet_marker = true ↔
      (handle_packet process prep send_payload stats packet_payload
          packet_marker).errors = stats.errors + 1 ∧
      (handle_packet process prep send_payload stats packet_payload
          packet_marker).packets_received = stats.packets_received ∧
      (handle_packet process prep send_payload stats packet_payload
          packet_marker).packets_sent = stats.packets_sent) := by
  unfold handle_packet handle_packet_raises
  rcases h1 : process packet_payload with e1 | audio_data
  · dsimp only
    refine ⟨by omega, by omega, by omega, by simp⟩
  · dsimp only
    by_cases h2 : 0 < audio_data.flatten.length
    · rw [if_pos h2, if_pos h2]
      rcases h3 : prep audio_data with e3 | output_payload
      · dsimp only
        refine ⟨by omega, by omega, by omega, by simp⟩
      · dsimp only
        by_cases h4 : output_payload = []
        · rw [if_neg (by simp [h4]), if_neg (by simp [h4])]
          dsimp only
          refine ⟨by omega, by omega, by omega, by simp⟩
        · rw [if_pos h4, if_pos h4]
          rcases h5 : send_payload output_payload packet_marker with e5 | success
          · dsimp only
            refine ⟨by omega, by omega, by omega, by simp⟩
          · dsimp only
            cases success
            · rw [if_neg (by decide)]
              dsimp only
              refine ⟨by omega, by omega, by omega, by simp⟩
            · rw [if_pos rfl]
              dsimp only
              refine ⟨by omega, by omega, by omega, by simp⟩
    · rw [if_neg h2, if_neg h2]
      dsimp only
      refine ⟨by omega, by omega, by omega, by simp⟩

/-- Closed instance of C10: a packet whose processing raises is counted in
`errors` only, leaving the received and sent counters at their starting
values; the raising condition holds and is equivalent to that error
outcome. -/
theorem handle_packet_counter_witness :
    ((handle_packet (fun _ => Except.error "boom") (fun _ => Except.ok [])
          (fun _ _ => Except.ok true) ⟨0, 0, 0⟩ [] false).packets_received = 0 + 1 ∧
      (handle_packet (fun _ => Except.error "boom") (fun _ => Except.ok [])
          (fun _ _ => Except.ok true) ⟨0, 0, 0⟩ [] false).errors = 0 ∨
     (handle_packet (fun _ => Except.error "boom") (fun _ => Except.ok [])
          (fun _ _ => Except.ok true) ⟨0, 0, 0⟩ [] false).errors = 0 + 1 ∧
      (handle_packet (fun _ => Except.error "boom") (fun _ => Except.ok [])
          (fun _ _ => Except.ok true) ⟨0, 0, 0⟩ [] false).packets_received = 0) ∧
    ((handle_packet (fun _ => Except.error "boom") (fun _ => Except.ok [])
          (fun _ _ => Except.ok true) ⟨0, 0, 0⟩ [] false).packets_sent = 0 ∨
     (handle_packet (fun _ => Except.error "boom") (fun _ => Except.ok [])
          (fun _ _ => Except.ok true) ⟨0, 0, 0⟩ [] false).packets_sent = 0 + 1 ∧
      (handle_packet (fun _ => Except.error "boom") (fun _ => Except.ok [])
          (fun _ _ => Except.ok true) ⟨0, 0, 0⟩ [] false).packets_received = 0 + 1) ∧
    ((handle_packet (fun _ => Except.error "boom") (fun _ => Except.ok [])
        (fun _ _ => Except.ok true) ⟨0, 0, 0⟩ [] false).packets_sent ≤
      (handle_packet (fun _ => Except.error "boom") (fun _ => Except.ok [])
        (fun _ _ => Except.ok true) ⟨0, 0, 0⟩ [] false).packets_received) ∧
    (handle_packet_raises (fun _ => Except.error "boom") (fun _ => Except.ok [])
        (fun _ _ => Except.ok true) [] false = true ↔
      (handle_packet (fun _ => Except.error "boom") (fun _ => Except.ok [])
          (fun _ _ => Except.ok true) ⟨0, 0, 0⟩ [] false).errors = 0 + 1 ∧
      (handle_packet (fun _ => Except.error "boom") (fun _ => Except.ok [])
          (fun _ _ => Except.ok true) ⟨0, 0, 0⟩ [] false).packets_received = 0 ∧
      (handle_packet (fun _ => Except.error "boom") (fun _ => Except.ok [])
          (fun _ _ => Except.ok true) ⟨0, 0, 0⟩ [] false).packets_sent = 0) :=
  handle_packet_counter_discipline (fun _ => Except.error "boom")
    (fun _ => Except.ok []) (fun _ _ => Except.ok true) ⟨0, 0, 0⟩ [] false
    (Nat.le_refl 0)
